import Mathlib

/-!
Shallow embedding of the `renda-renderer` rocket mini-game
(`src/src/components/ClickGame.tsx`, most elaborated variant of the
component, whose handlers live at lines 680-758 of the concatenated
source file).

The game state is the React `GameState` aggregate; numbers are modelled
as exact rationals (the source uses JS numbers with the literal
increments 2, 5, 15, 0.2, 0.1 and bounds 100, 8, 0, 3000).  Discrete
events are: the Space key press (`keyPress`, carrying the wall-clock
time `Date.now()` and the current `window.innerHeight` sampled at
processing time), the one-shot full-power `setTimeout` firing
(`fullPowerTimer`), and the 50ms shake-decay `setInterval` tick
(`decayTick`).  Following the spec's design note, the one-shot timer is
modelled as an explicit pending flag owned by the system state: it is
armed exactly when `isFullPower` transitions false to true (the React
effect keyed on `[gameState.isFullPower]`), and a firing consumes it.
A viewport resize mutates no game state in the source (its listener only
resizes the canvas), so it is represented by the per-press `innerHeight`
parameter rather than by a separate event.

A note on closure staleness: the key handler's effect is keyed on
`[scene, launchStartTime, atmosphereStartTime]`, so the `isFullPower`
it reads in the power branch can be one render stale.  This is
observationally irrelevant: the first latching press always leaves
power at 100 (the latch fires at previous power 98, step 2), and a
stale re-execution of the branch recomputes power to
min(100 + 2, 100) = 100 and isFullPower to (100 >= 98) = true, the
same state the fresh guard preserves by doing nothing.  The embedding
therefore applies every update to the latest committed state, which is
also the atomicity contract of spec section 5.
-/

namespace ClickGame

/-- Scene enumeration, `type GameScene = 'power' | 'launch' | 'atmosphere'`. -/
inductive GameScene where
  | power
  | launch
  | atmosphere
  deriving DecidableEq, Repr

/-- Decorative star, `interface Star` (read-only after creation). -/
structure Star where
  x : ℚ
  y : ℚ
  size : ℚ
  brightness : ℚ
  deriving DecidableEq, Repr

/-- Decorative cloud, `interface Cloud` (read-only after creation). -/
structure Cloud where
  x : ℚ
  y : ℚ
  width : ℚ
  height : ℚ
  speed : ℚ
  deriving DecidableEq, Repr

/-- Vestigial particle shape, `interface Particle` (declared but never
populated by any handler). -/
structure Particle where
  x : ℚ
  y : ℚ
  vx : ℚ
  vy : ℚ
  life : ℚ
  color : String
  deriving DecidableEq, Repr

/-- The mutable aggregate `interface GameState` of the most elaborated
variant (fields in source order). -/
structure GameState where
  scene : GameScene
  power : ℚ
  rocketY : ℚ
  isExploded : Bool
  particles : List Particle
  stars : List Star
  clouds : List Cloud
  isFullPower : Bool
  fullPowerTime : ℚ
  launchStartTime : ℚ
  isLaunching : Bool
  shakeIntensity : ℚ
  isLaunchSuccess : Bool
  atmosphereStartTime : ℚ
  deriving DecidableEq, Repr

/-- Initial `useState` value (the star and cloud sets are randomly
generated at startup, so they are parameters here; everything else is
the literal initializer). -/
def initGameState (stars : List Star) (clouds : List Cloud) : GameState :=
  { scene := GameScene.power
    power := 0
    rocketY := 0
    isExploded := false
    particles := []
    stars := stars
    clouds := clouds
    isFullPower := false
    fullPowerTime := 0
    launchStartTime := 0
    isLaunching := false
    shakeIntensity := 0
    isLaunchSuccess := false
    atmosphereStartTime := 0 }

/-- The Space-key handler `handleKeyPress` (lines 681-726): one advance
signal processed at wall-clock time `now` with viewport height
`innerHeight` (the value of `window.innerHeight` read inside the
atmosphere branch).  The source literals: power step 2 clamped at 100,
latch threshold 98 tested on the pre-increment power; launch gate
`now - launchStartTime >= 3000`, rocket step 5, shake increment 0.2
clamped at 8, max-power test `newShakeIntensity >= 8`; atmosphere gate
`now - atmosphereStartTime >= 3000`, rocket step 15, explosion test
`prev.rocketY >= window.innerHeight` on the pre-increment rocketY. -/
def handleKeyPress (now innerHeight : ℚ) (s : GameState) : GameState :=
  match s.scene with
  | GameScene.power =>
      if s.isFullPower then s
      else
        { s with
          power := min (s.power + 2) 100
          isFullPower := decide (s.power ≥ 98) }
  | GameScene.launch =>
      if now - s.launchStartTime ≥ 3000 then
        let newShakeIntensity := min (s.shakeIntensity + 1/5) 8
        let isMaxPower := decide (newShakeIntensity ≥ 8)
        { s with
          isLaunching := true
          rocketY := s.rocketY + 5
          shakeIntensity := newShakeIntensity
          isLaunchSuccess := if isMaxPower then true else s.isLaunchSuccess
          atmosphereStartTime := if isMaxPower then now else s.atmosphereStartTime
          scene := if isMaxPower then GameScene.atmosphere else GameScene.launch }
      else s
  | GameScene.atmosphere =>
      if now - s.atmosphereStartTime ≥ 3000 then
        { s with
          rocketY := s.rocketY + 15
          isExploded := decide (s.rocketY ≥ innerHeight) }
      else s

/-- Body of the one-shot full-power `setTimeout` callback
(lines 734-741), fired at wall-clock time `now`: enter the launch
scene, capture `launchStartTime`, reset `isLaunching`. -/
def fullPowerTransition (now : ℚ) (s : GameState) : GameState :=
  { s with
    scene := GameScene.launch
    launchStartTime := now
    isLaunching := false }

/-- Body of the 50ms shake-decay `setInterval` callback
(lines 748-754); the interval only exists while `isLaunching` is true
(the effect is keyed on `[gameState.isLaunching]`), so the tick is a
no-op otherwise. -/
def shakeDecayTick (s : GameState) : GameState :=
  if s.isLaunching then
    { s with shakeIntensity := max (s.shakeIntensity - 1/10) 0 }
  else s

/-- Game state plus the scheduler fact the React runtime keeps for the
one-shot full-power timeout: whether that timeout is currently armed. -/
structure SysState where
  g : GameState
  launchTimerPending : Bool
  deriving DecidableEq, Repr

/-- Discrete events that mutate state during a session. -/
inductive GameEvent where
  | keyPress (now innerHeight : ℚ)
  | fullPowerTimer (now : ℚ)
  | decayTick
  deriving DecidableEq, Repr

/-- One atomic event applied to the latest committed state (spec section 5:
every update is an atomic read-modify-write of the latest state).  A key
press additionally arms the one-shot timer exactly when it latches
`isFullPower` from false to true; the timer firing consumes the armed
flag, so a fire while unarmed is a no-op (an unscheduled timeout cannot
fire in the browser, and the effect cleanup clears a stale handle). -/
def step : GameEvent → SysState → SysState
  | GameEvent.keyPress now innerHeight, s =>
      let g := handleKeyPress now innerHeight s.g
      { g := g
        launchTimerPending :=
          s.launchTimerPending || (!s.g.isFullPower && g.isFullPower) }
  | GameEvent.fullPowerTimer now, s =>
      if s.launchTimerPending then
        { g := fullPowerTransition now s.g, launchTimerPending := false }
      else s
  | GameEvent.decayTick, s =>
      { s with g := shakeDecayTick s.g }

/-- Fold a list of events over a state, first event first. -/
def steps : List GameEvent → SysState → SysState
  | [], s => s
  | e :: evs, s => steps evs (step e s)

/-- System state at session start. -/
def initSys (stars : List Star) (clouds : List Cloud) : SysState :=
  { g := initGameState stars clouds, launchTimerPending := false }

/-- Invariant of every reachable state: the one-shot launch timer is only
armed while still in the power scene, and in the power scene the rocket
is never launching. -/
def Inv (s : SysState) : Prop :=
  (s.launchTimerPending = true → s.g.scene = GameScene.power) ∧
  (s.g.scene = GameScene.power → s.g.isLaunching = false)

/-- Position of a scene in the forward order power, launch, atmosphere. -/
def sceneRank : GameScene → ℕ
  | GameScene.power => 0
  | GameScene.launch => 1
  | GameScene.atmosphere => 2

/-- Recognizer for advance-signal events. -/
def isAdvance : GameEvent → Bool
  | GameEvent.keyPress _ _ => true
  | GameEvent.fullPowerTimer _ => false
  | GameEvent.decayTick => false

/-- An event whose viewport-height sample (if any) equals `h0`: a stretch
of session during which the window height stays `h0`. -/
def usesHeight (h0 : ℚ) : GameEvent → Bool
  | GameEvent.keyPress _ innerHeight => decide (innerHeight = h0)
  | GameEvent.fullPowerTimer _ => true
  | GameEvent.decayTick => true

/-- Expected system state after `n` advance-signals from the start of the
power scene. -/
def powerPhase (stars : List Star) (clouds : List Cloud) (n : ℕ) : SysState :=
  { g := { initGameState stars clouds with
             power := min (2 * (n : ℚ)) 100
             isFullPower := decide (50 ≤ n) }
    launchTimerPending := decide (50 ≤ n) }

/-- A complete concrete play-through with the viewport 300 pixels tall:
50 power presses (latch on the 50th), the one-shot timer fire at 5000,
41 launch presses after the gate (two decay ticks after the first press
bring the shake back to 0, so the shake reaches exactly 8 on the 41st
press, with the rocket at 205), then 7 atmosphere presses after the
atmosphere gate (the rocket ends at 205 + 7 * 15 = 310). -/
def c1Trace : List GameEvent :=
  List.replicate 50 (GameEvent.keyPress 0 300) ++
    [GameEvent.fullPowerTimer 5000] ++
    [GameEvent.keyPress 8000 300] ++
    [GameEvent.decayTick, GameEvent.decayTick] ++
    List.replicate 40 (GameEvent.keyPress 8000 300) ++
    List.replicate 7 (GameEvent.keyPress 11000 300)

/-- Concrete launch-scene state used by witnesses: gate 3000 already open
for a press at time 3000, shake one increment below the clamp, launching,
latched. -/
def sLaunchReady : SysState :=
  ⟨⟨GameScene.launch, 100, 200, false, [], [], [], true, 0, 0, true, 39/5, false, 0⟩, false⟩

/-- Concrete latched power-scene state with the one-shot timer armed. -/
def sPowerLatched : SysState :=
  ⟨⟨GameScene.power, 100, 0, false, [], [], [], true, 0, 0, false, 0, false, 0⟩, true⟩

/-- Concrete atmosphere-scene state that has already exploded at a
viewport 300 pixels tall (rocket at 500). -/
def sAtmoExploded : SysState :=
  ⟨⟨GameScene.atmosphere, 100, 500, true, [], [], [], true, 0, 5000, true, 8, true, 0⟩, false⟩

/-! Helper lemmas: single-step and trace preservation facts shared by the
claim theorems below. -/

theorem inv_init (stars : List Star) (clouds : List Cloud) :
    Inv (initSys stars clouds) := by
  constructor <;> simp [initSys, initGameState]

theorem inv_step (e : GameEvent) (s : SysState) (h : Inv s) :
    Inv (step e s) := by
  obtain ⟨⟨sc, pw, ry, ex, pa, st, cl, fp, fpt, lst, il, sh, ls, ast⟩, pend⟩ := s
  obtain ⟨h1, h2⟩ := h
  simp only [Inv] at *
  cases e with
  | keyPress now innerHeight =>
      cases sc <;> cases fp <;> cases pend <;>
        simp_all [step, handleKeyPress] <;> split_ifs <;> simp_all
  | fullPowerTimer now =>
      cases pend <;> simp_all [step, fullPowerTransition]
  | decayTick =>
      cases il <;> cases pend <;> simp_all [step, shakeDecayTick]

theorem inv_steps (evs : List GameEvent) (s : SysState) (h : Inv s) :
    Inv (steps evs s) := by
  induction evs generalizing s with
  | nil => exact h
  | cons e evs ih => exact ih _ (inv_step e s h)

theorem isFullPower_step (e : GameEvent) (s : SysState)
    (h : s.g.isFullPower = true) : (step e s).g.isFullPower = true := by
  obtain ⟨⟨sc, pw, ry, ex, pa, st, cl, fp, fpt, lst, il, sh, ls, ast⟩, pend⟩ := s
  cases e with
  | keyPress now innerHeight =>
      cases sc <;> simp_all [step, handleKeyPress] <;> split_ifs <;> simp_all
  | fullPowerTimer now =>
      cases pend <;> simp_all [step, fullPowerTransition]
  | decayTick =>
      cases il <;> simp_all [step, shakeDecayTick]

theorem isFullPower_steps (evs : List GameEvent) (s : SysState)
    (h : s.g.isFullPower = true) : (steps evs s).g.isFullPower = true := by
  induction evs generalizing s with
  | nil => exact h
  | cons e evs ih => exact ih _ (isFullPower_step e s h)

theorem pending_step (e : GameEvent) (s : SysState)
    (h : s.g.isFullPower = true) (hp : s.launchTimerPending = false) :
    (step e s).launchTimerPending = false := by
  cases e with
  | keyPress now innerHeight => simp [step, h, hp]
  | fullPowerTimer now => simp [step, hp]
  | decayTick => simp [step, hp]

theorem pending_steps (evs : List GameEvent) (s : SysState)
    (h : s.g.isFullPower = true) (hp : s.launchTimerPending = false) :
    (steps evs s).launchTimerPending = false := by
  induction evs generalizing s with
  | nil => exact hp
  | cons e evs ih =>
      exact ih _ (isFullPower_step e s h) (pending_step e s h hp)

theorem sceneRank_step (e : GameEvent) (s : SysState) (h : Inv s) :
    sceneRank s.g.scene ≤ sceneRank (step e s).g.scene := by
  obtain ⟨⟨sc, pw, ry, ex, pa, st, cl, fp, fpt, lst, il, sh, ls, ast⟩, pend⟩ := s
  obtain ⟨h1, h2⟩ := h
  simp only at *
  cases e with
  | keyPress now innerHeight =>
      cases sc <;> cases fp <;>
        simp_all [step, handleKeyPress, sceneRank] <;> split_ifs <;> simp_all [sceneRank]
  | fullPowerTimer now =>
      cases pend <;> simp_all [step, fullPowerTransition, sceneRank]
  | decayTick =>
      cases il <;> simp_all [step, shakeDecayTick]

theorem sceneRank_steps (evs : List GameEvent) (s : SysState) (h : Inv s) :
    sceneRank s.g.scene ≤ sceneRank (steps evs s).g.scene := by
  induction evs generalizing s with
  | nil => exact le_refl _
  | cons e evs ih =>
      exact le_trans (sceneRank_step e s h) (ih _ (inv_step e s h))

theorem isLaunching_step (e : GameEvent) (s : SysState) (h : Inv s)
    (hl : s.g.isLaunching = true) : (step e s).g.isLaunching = true := by
  obtain ⟨⟨sc, pw, ry, ex, pa, st, cl, fp, fpt, lst, il, sh, ls, ast⟩, pend⟩ := s
  obtain ⟨h1, h2⟩ := h
  simp only at *
  cases e with
  | keyPress now innerHeight =>
      cases sc <;> cases fp <;>
        simp_all [step, handleKeyPress] <;> split_ifs <;> simp_all
  | fullPowerTimer now =>
      cases pend <;> simp_all [step, fullPowerTransition]
  | decayTick =>
      cases il <;> simp_all [step, shakeDecayTick]

theorem isLaunching_steps (evs : List GameEvent) (s : SysState) (h : Inv s)
    (hl : s.g.isLaunching = true) : (steps evs s).g.isLaunching = true := by
  induction evs generalizing s with
  | nil => exact hl
  | cons e evs ih =>
      exact ih _ (inv_step e s h) (isLaunching_step e s h hl)

theorem rocketY_step (e : GameEvent) (s : SysState) :
    s.g.rocketY ≤ (step e s).g.rocketY := by
  obtain ⟨⟨sc, pw, ry, ex, pa, st, cl, fp, fpt, lst, il, sh, ls, ast⟩, pend⟩ := s
  cases e with
  | keyPress now innerHeight =>
      cases sc <;> simp_all [step, handleKeyPress] <;> split_ifs <;> simp_all
  | fullPowerTimer now =>
      cases pend <;> simp_all [step, fullPowerTransition]
  | decayTick =>
      cases il <;> simp_all [step, shakeDecayTick]

theorem exploded_step (e : GameEvent) (s : SysState) (h0 : ℚ)
    (hex : s.g.isExploded = true) (hge : h0 ≤ s.g.rocketY)
    (hh : usesHeight h0 e = true) :
    (step e s).g.isExploded = true ∧ h0 ≤ (step e s).g.rocketY := by
  refine ⟨?_, le_trans hge (rocketY_step e s)⟩
  obtain ⟨⟨sc, pw, ry, ex, pa, st, cl, fp, fpt, lst, il, sh, ls, ast⟩, pend⟩ := s
  cases e with
  | keyPress now innerHeight =>
      simp only [usesHeight, decide_eq_true_eq] at hh
      subst hh
      cases sc <;> simp_all [step, handleKeyPress] <;> split_ifs <;> simp_all
  | fullPowerTimer now =>
      cases pend <;> simp_all [step, fullPowerTransition]
  | decayTick =>
      cases il <;> simp_all [step, shakeDecayTick]

theorem exploded_steps (evs : List GameEvent) (s : SysState) (h0 : ℚ)
    (hex : s.g.isExploded = true) (hge : h0 ≤ s.g.rocketY)
    (hh : evs.all (usesHeight h0) = true) :
    (steps evs s).g.isExploded = true := by
  induction evs generalizing s with
  | nil => exact hex
  | cons e evs ih =>
      simp only [List.all_cons, Bool.and_eq_true] at hh
      obtain ⟨he, hco⟩ := exploded_step e s h0 hex hge hh.1
      exact ih _ he hco hh.2

theorem powerPhase_zero (stars : List Star) (clouds : List Cloud) :
    powerPhase stars clouds 0 = initSys stars clouds := by
  simp [powerPhase, initSys, initGameState]

theorem powerPhase_press (stars : List Star) (clouds : List Cloud)
    (n : ℕ) (t h : ℚ) :
    step (GameEvent.keyPress t h) (powerPhase stars clouds n) =
      powerPhase stars clouds (n + 1) := by
  by_cases hn : 50 ≤ n
  · have hq : (50 : ℚ) ≤ n := by exact_mod_cast hn
    have h100 : min (2 * (n : ℚ)) 100 = 100 := min_eq_right (by linarith)
    have h100s : min (2 * ((n : ℚ) + 1)) 100 = 100 := min_eq_right (by linarith)
    have hn1 : 50 ≤ n + 1 := Nat.le_succ_of_le hn
    simp [step, handleKeyPress, powerPhase, initGameState, hn, hn1, h100,
      Nat.cast_add, Nat.cast_one, h100s]
  · have hle : n ≤ 49 := by omega
    have hq : (n : ℚ) ≤ 49 := by exact_mod_cast hle
    have hsmall : min (2 * (n : ℚ)) 100 = 2 * n := min_eq_left (by linarith)
    have harg : 2 * (n : ℚ) + 2 = 2 * ((n : ℚ) + 1) := by ring
    have hlatch : decide ((98 : ℚ) ≤ 2 * (n : ℚ)) = decide (50 ≤ n + 1) := by
      rw [decide_eq_decide]
      constructor
      · intro hx
        have h49 : (49 : ℚ) ≤ n := by linarith
        have : (49 : ℕ) ≤ n := by exact_mod_cast h49
        omega
      · intro hx
        have h49 : (49 : ℕ) ≤ n := by omega
        have : (49 : ℚ) ≤ n := by exact_mod_cast h49
        linarith
    simp [step, handleKeyPress, powerPhase, initGameState, hn, hsmall, harg,
      Nat.cast_add, Nat.cast_one, hlatch]

theorem powerPhase_steps (stars : List Star) (clouds : List Cloud)
    (evs : List GameEvent) (n : ℕ) (h : evs.all isAdvance = true) :
    steps evs (powerPhase stars clouds n) =
      powerPhase stars clouds (n + evs.length) := by
  induction evs generalizing n with
  | nil => simp [steps]
  | cons e evs ih =>
      simp only [List.all_cons, Bool.and_eq_true] at h
      cases e with
      | keyPress t hh =>
          show steps evs (step (GameEvent.keyPress t hh) (powerPhase stars clouds n)) = _
          rw [powerPhase_press, ih (n + 1) h.2]
          congr 1
          simp only [List.length_cons]
          omega
      | fullPowerTimer t => simp [isAdvance] at h
      | decayTick => simp [isAdvance] at h

theorem power_mash (stars : List Star) (clouds : List Cloud)
    (evs : List GameEvent) (h : evs.all isAdvance = true) :
    steps evs (initSys stars clouds) = powerPhase stars clouds evs.length := by
  rw [← powerPhase_zero, powerPhase_steps stars clouds evs 0 h, Nat.zero_add]

set_option maxRecDepth 10000 in
theorem c1Trace_result :
    steps c1Trace (initSys [] []) =
      ⟨⟨GameScene.atmosphere, 100, 310, false, [], [], [], true, 0, 5000, true, 8, true, 8000⟩,
        false⟩ := by
  norm_num [c1Trace, steps, step, handleKeyPress, fullPowerTransition, shakeDecayTick,
    initSys, initGameState, List.replicate, min_def, max_def]

/-! Claim theorems. -/

/-- C1, counterexample.  Along a complete concrete play-through with the
viewport 300 pixels tall, the last atmosphere advance-signal (processed
3000ms after AtmosphereStartTimestamp 8000) leaves the rocket at 310,
at least the viewport height 300, yet IsExploded is false, refuting the
claimed biconditional with the resulting RocketY; and after one further
press has set IsExploded true, a press following a resize of the
viewport to 400 resets IsExploded to false, refuting irreversibility
under resize. -/
theorem C1_counterexample :
    (steps c1Trace (initSys [] [])).g.scene = GameScene.atmosphere ∧
    (steps c1Trace (initSys [] [])).g.atmosphereStartTime = 8000 ∧
    (300 : ℚ) ≤ (steps c1Trace (initSys [] [])).g.rocketY ∧
    (steps c1Trace (initSys [] [])).g.isExploded = false ∧
    (step (GameEvent.keyPress 11000 300) (steps c1Trace (initSys [] []))).g.isExploded
      = true ∧
    (step (GameEvent.keyPress 11000 400)
        (step (GameEvent.keyPress 11000 300) (steps c1Trace (initSys [] [])))).g.isExploded
      = false := by
  rw [c1Trace_result]
  norm_num [step, handleKeyPress]

/-- C1, amended.  In the atmosphere scene, an advance-signal processed at
least 3000ms after AtmosphereStartTimestamp sets IsExploded true exactly
when the pre-signal RocketY (the resulting RocketY minus 15) is at least
the viewport height sampled at that signal; IsExploded is recomputed on
every such signal rather than latched, so once true it stays true for
the remainder of the session provided every later advance-signal sees a
viewport height no larger than the rocket altitude already reached (in
particular whenever the viewport is never enlarged). -/
theorem C1_isExploded_threshold (s : SysState) (now h h0 : ℚ)
    (evs : List GameEvent)
    (hs : s.g.scene = GameScene.atmosphere)
    (hg : 3000 ≤ now - s.g.atmosphereStartTime) :
    ((step (GameEvent.keyPress now h) s).g.isExploded = true ↔ h ≤ s.g.rocketY) ∧
    (step (GameEvent.keyPress now h) s).g.rocketY = s.g.rocketY + 15 ∧
    (s.g.isExploded = true → h0 ≤ s.g.rocketY → evs.all (usesHeight h0) = true →
       (steps evs s).g.isExploded = true) := by
  refine ⟨?_, ?_, fun hex hge hh => exploded_steps evs s h0 hex hge hh⟩ <;>
    · obtain ⟨⟨sc, pw, ry, ex, pa, st, cl, fp, fpt, lst, il, sh, ls, ast⟩, pend⟩ := s
      simp only at hs hg ⊢
      subst hs
      simp [step, handleKeyPress, hg, ge_iff_le]

/-- C1, witness: the amended theorem applied to a concrete exploded
atmosphere state at viewport height 300, with one further same-height
press. -/
theorem C1_witness :
    (steps [GameEvent.keyPress 4000 300] sAtmoExploded).g.isExploded = true :=
  (C1_isExploded_threshold sAtmoExploded 3000 300 300 [GameEvent.keyPress 4000 300]
      rfl (by norm_num [sAtmoExploded])).2.2
    rfl (by norm_num [sAtmoExploded]) (by simp [usesHeight])

/-- C2, counterexample.  After exactly 49 advance-signals from the initial
state, Power is 98 but FullPowerReached is still false (the source tests
the latch threshold on the pre-increment power), refuting the claim that
the latch is already true after 49 signals. -/
theorem C2_counterexample :
    (steps (List.replicate 49 (GameEvent.keyPress 0 800)) (initSys [] [])).g.power = 98 ∧
    (steps (List.replicate 49 (GameEvent.keyPress 0 800)) (initSys [] [])).g.isFullPower
      = false := by
  rw [power_mash [] [] _ (by simp [List.all_eq_true, isAdvance])]
  constructor
  · norm_num [powerPhase, initGameState]
  · norm_num [powerPhase, initGameState]

/-- C2, amended.  Starting from the initial state with step 2, after any
sequence of n advance-signals in the power scene Power equals
min(n * 2, 100) and never exceeds 100; FullPowerReached is true exactly
when n is at least 50: after 49 signals Power = 98 with the latch still
false, and the 50th signal latches it with Power = 100 (the source tests
the threshold 98 against the pre-increment power). -/
theorem C2_power_progress (stars : List Star) (clouds : List Cloud)
    (t h : ℚ) (evs : List GameEvent) (hadv : evs.all isAdvance = true) :
    ((steps evs (initSys stars clouds)).g.power
        = min (2 * (evs.length : ℚ)) 100 ∧
     (steps evs (initSys stars clouds)).g.power ≤ 100 ∧
     (steps evs (initSys stars clouds)).g.isFullPower = decide (50 ≤ evs.length)) ∧
    ((steps (List.replicate 49 (GameEvent.keyPress t h)) (initSys stars clouds)).g.power
        = 98 ∧
     (steps (List.replicate 49 (GameEvent.keyPress t h))
         (initSys stars clouds)).g.isFullPower = false) ∧
    ((steps (List.replicate 50 (GameEvent.keyPress t h)) (initSys stars clouds)).g.power
        = 100 ∧
     (steps (List.replicate 50 (GameEvent.keyPress t h))
         (initSys stars clouds)).g.isFullPower = true) := by
  have hrep : ∀ k : ℕ,
      (List.replicate k (GameEvent.keyPress t h)).all isAdvance = true := by
    intro k
    simp [List.all_eq_true, isAdvance]
  rw [power_mash stars clouds evs hadv,
    power_mash stars clouds _ (hrep 49), power_mash stars clouds _ (hrep 50)]
  refine ⟨⟨rfl, min_le_right _ _, rfl⟩, ⟨?_, ?_⟩, ⟨?_, ?_⟩⟩
  · norm_num [powerPhase, initGameState]
  · norm_num [powerPhase, initGameState]
  · norm_num [powerPhase, initGameState]
  · norm_num [powerPhase, initGameState]

/-- C2, witness: the amended theorem applied to a single advance-signal
from the initial state. -/
theorem C2_witness :
    (steps [GameEvent.keyPress 0 800] (initSys [] [])).g.power
      = min (2 * (([GameEvent.keyPress 0 800] : List GameEvent).length : ℚ)) 100 :=
  (C2_power_progress [] [] 0 800 [GameEvent.keyPress 0 800] rfl).1.1

/-- C3, code bug.  The 50th advance-signal latches FullPowerReached, yet
fullPowerTime keeps its initial value 0 instead of the wall-clock time
5000 at which the latching signal was processed: no handler in the
source ever writes fullPowerTime, even though the power-scene renderer
reads it as the latch time to drive the 3-second countdown display
(which is consequently never shown, since 3 - floor((now - 0) / 1000)
is far below zero for any realistic clock). -/
theorem C3_fullPowerTime_never_captured :
    (steps (List.replicate 50 (GameEvent.keyPress 5000 800)) (initSys [] [])).g.isFullPower
      = true ∧
    (steps (List.replicate 50 (GameEvent.keyPress 5000 800)) (initSys [] [])).g.fullPowerTime
      = 0 ∧
    (steps (List.replicate 50 (GameEvent.keyPress 5000 800)) (initSys [] [])).g.fullPowerTime
      ≠ 5000 := by
  rw [power_mash [] [] _ (by simp [List.all_eq_true, isAdvance])]
  refine ⟨?_, ?_, ?_⟩
  · norm_num [powerPhase, initGameState]
  · norm_num [powerPhase, initGameState]
  · norm_num [powerPhase, initGameState]

/-- C4, confirmed.  In the launch scene, an advance-signal processed at
least 3000ms after LaunchStartTimestamp adds exactly 0.2 to
ShakeIntensity clamped at 8 (and 5 to RocketY, and sets IsLaunching);
when the resulting ShakeIntensity is 8 that same signal sets
IsLaunchSuccess, captures AtmosphereStartTimestamp as the signal's
wall-clock time, and moves the scene to atmosphere; when it is still
below 8 the scene stays launch and IsLaunchSuccess and
AtmosphereStartTimestamp are unchanged. -/
theorem C4_launch_press (s : SysState) (now h : ℚ)
    (hs : s.g.scene = GameScene.launch)
    (hg : 3000 ≤ now - s.g.launchStartTime) :
    (step (GameEvent.keyPress now h) s).g.shakeIntensity
        = min (s.g.shakeIntensity + 1/5) 8 ∧
    (step (GameEvent.keyPress now h) s).g.isLaunching = true ∧
    (step (GameEvent.keyPress now h) s).g.rocketY = s.g.rocketY + 5 ∧
    ((step (GameEvent.keyPress now h) s).g.shakeIntensity = 8 →
       (step (GameEvent.keyPress now h) s).g.isLaunchSuccess = true ∧
       (step (GameEvent.keyPress now h) s).g.atmosphereStartTime = now ∧
       (step (GameEvent.keyPress now h) s).g.scene = GameScene.atmosphere) ∧
    ((step (GameEvent.keyPress now h) s).g.shakeIntensity < 8 →
       (step (GameEvent.keyPress now h) s).g.scene = GameScene.launch ∧
       (step (GameEvent.keyPress now h) s).g.isLaunchSuccess = s.g.isLaunchSuccess ∧
       (step (GameEvent.keyPress now h) s).g.atmosphereStartTime
         = s.g.atmosphereStartTime) := by
  obtain ⟨⟨sc, pw, ry, ex, pa, st, cl, fp, fpt, lst, il, sh, ls, ast⟩, pend⟩ := s
  simp only at hs hg ⊢
  subst hs
  by_cases hcl : (8 : ℚ) ≤ sh + 1/5
  · have hmin : min (sh + 1/5) 8 = 8 := min_eq_right hcl
    have hres :
        step (GameEvent.keyPress now h)
            ⟨⟨GameScene.launch, pw, ry, ex, pa, st, cl, fp, fpt, lst, il, sh, ls, ast⟩,
              pend⟩ =
          ⟨⟨GameScene.atmosphere, pw, ry + 5, ex, pa, st, cl, fp, fpt, lst, true, 8, true,
              now⟩, pend⟩ := by
      simp [step, handleKeyPress, hg, hmin]
      refine ⟨by linarith, Or.inl (by linarith),
        fun hlt => absurd hlt (not_lt.mpr (by linarith))⟩
    rw [hres, hmin]
    exact ⟨rfl, rfl, rfl, fun _ => ⟨rfl, rfl, rfl⟩, fun hlt => (lt_irrefl 8 hlt).elim⟩
  · have hlt5 : sh + 1/5 < 8 := lt_of_not_le hcl
    have hmin : min (sh + 1/5) 8 = sh + 1/5 := min_eq_left (le_of_lt hlt5)
    have hdec : ¬ (8 : ℚ) ≤ min (sh + 1/5) 8 := by rw [hmin]; exact hcl
    have hres :
        step (GameEvent.keyPress now h)
            ⟨⟨GameScene.launch, pw, ry, ex, pa, st, cl, fp, fpt, lst, il, sh, ls, ast⟩,
              pend⟩ =
          ⟨⟨GameScene.launch, pw, ry + 5, ex, pa, st, cl, fp, fpt, lst, true, sh + 1/5, ls,
              ast⟩, pend⟩ := by
      simp [step, handleKeyPress, hg, hdec, hmin]
      refine ⟨by linarith, by linarith,
        fun hx => absurd (by linarith : (8 : ℚ) ≤ sh + 1 / 5) hcl,
        fun hx => absurd (by linarith : (8 : ℚ) ≤ sh + 1 / 5) hcl⟩
    rw [hres, hmin]
    exact ⟨rfl, rfl, rfl, fun hx => absurd hx (ne_of_lt hlt5), fun _ => ⟨rfl, rfl, rfl⟩⟩

/-- C4, witness: the theorem applied to a launch state whose shake is one
increment below the clamp, so this press reaches 8. -/
theorem C4_witness :
    (step (GameEvent.keyPress 3000 300) sLaunchReady).g.shakeIntensity
      = min ((39/5 : ℚ) + 1/5) 8 :=
  (C4_launch_press sLaunchReady 3000 300 rfl (by norm_num [sLaunchReady])).1

/-- C5, confirmed.  When the armed one-shot full-power timeout fires (the
source schedules it 3000ms after the latch), the transition to the
launch scene happens exactly once: it sets scene to launch, captures
LaunchStartTimestamp as the firing time, resets IsLaunching, and
disarms the timeout; further input never re-arms it (arming needs a
false-to-true edge of the latch, which stays true), and after any
further events a second firing of the timer leaves the state exactly
unchanged. -/
theorem C5_launch_transition_once (s : SysState) (t t2 now2 h2 : ℚ)
    (evs : List GameEvent)
    (hp : s.launchTimerPending = true) (hfp : s.g.isFullPower = true) :
    (step (GameEvent.fullPowerTimer t) s).g.scene = GameScene.launch ∧
    (step (GameEvent.fullPowerTimer t) s).g.launchStartTime = t ∧
    (step (GameEvent.fullPowerTimer t) s).g.isLaunching = false ∧
    (step (GameEvent.fullPowerTimer t) s).launchTimerPending = false ∧
    (step (GameEvent.keyPress now2 h2) s).launchTimerPending = true ∧
    step (GameEvent.fullPowerTimer t2)
        (steps evs (step (GameEvent.fullPowerTimer t) s)) =
      steps evs (step (GameEvent.fullPowerTimer t) s) := by
  have h1 : step (GameEvent.fullPowerTimer t) s =
      { g := fullPowerTransition t s.g, launchTimerPending := false } := by
    simp [step, hp]
  have hfp2 : (step (GameEvent.fullPowerTimer t) s).g.isFullPower = true := by
    rw [h1]; simpa [fullPowerTransition] using hfp
  have hpend2 : (step (GameEvent.fullPowerTimer t) s).launchTimerPending = false := by
    rw [h1]
  have hpend3 :
      (steps evs (step (GameEvent.fullPowerTimer t) s)).launchTimerPending = false :=
    pending_steps evs _ hfp2 hpend2
  refine ⟨?_, ?_, ?_, hpend2, ?_, ?_⟩
  · rw [h1]; simp [fullPowerTransition]
  · rw [h1]; simp [fullPowerTransition]
  · rw [h1]; simp [fullPowerTransition]
  · simp [step, hp]
  · rw [h1] at hpend3 ⊢
    simp [step, hpend3]

/-- C5, witness: the theorem applied to a concrete latched power state
with the timeout armed, an interposed decay tick, and a second firing. -/
theorem C5_witness :
    (step (GameEvent.fullPowerTimer 3000) sPowerLatched).g.scene = GameScene.launch :=
  (C5_launch_transition_once sPowerLatched 3000 9999 100 800 [GameEvent.decayTick]
      rfl rfl).1

/-- C6, confirmed.  In the launch scene, an advance-signal processed
strictly before 3000ms have elapsed since LaunchStartTimestamp leaves
the whole system state (in particular RocketY, ShakeIntensity and
IsLaunching) exactly unchanged. -/
theorem C6_press_before_countdown_noop (s : SysState) (now h : ℚ)
    (hs : s.g.scene = GameScene.launch)
    (hg : now - s.g.launchStartTime < 3000) :
    step (GameEvent.keyPress now h) s = s := by
  obtain ⟨⟨sc, pw, ry, ex, pa, st, cl, fp, fpt, lst, il, sh, ls, ast⟩, pend⟩ := s
  simp only at hs hg ⊢
  subst hs
  simp [step, handleKeyPress, not_le.mpr hg]

/-- C6, witness: the theorem applied to a concrete launch state pressed
1000ms after LaunchStartTimestamp. -/
theorem C6_witness :
    step (GameEvent.keyPress 1000 300) sLaunchReady = sLaunchReady :=
  C6_press_before_countdown_noop sLaunchReady 1000 300 rfl (by norm_num [sLaunchReady])

/-- C7, confirmed.  From any state in which FullPowerReached is true,
every sequence of subsequent events (advance-signals in any scene, decay
ticks, timer firings) leaves FullPowerReached true: the latch is
irreversible within a play-through. -/
theorem C7_fullPower_latch_irreversible (s : SysState) (evs : List GameEvent)
    (h : s.g.isFullPower = true) :
    (steps evs s).g.isFullPower = true :=
  isFullPower_steps evs s h

/-- C7, witness: the theorem applied to a concrete latched state and a
trace containing a press, a decay tick and a timer firing. -/
theorem C7_witness :
    (steps [GameEvent.decayTick, GameEvent.fullPowerTimer 5,
        GameEvent.keyPress 1 2] sLaunchReady).g.isFullPower = true :=
  C7_fullPower_latch_irreversible sLaunchReady
    [GameEvent.decayTick, GameEvent.fullPowerTimer 5, GameEvent.keyPress 1 2] rfl

/-- C8, confirmed.  While IsLaunching is true, a decay tick replaces
ShakeIntensity by max(ShakeIntensity - 0.1, 0), which is a strict
decrease whenever ShakeIntensity is positive and is never negative; and
within the clamp (ShakeIntensity at most 8) an advance-signal in any
scene never decreases ShakeIntensity. -/
theorem C8_shake_monotonicity (s : SysState) (now h : ℚ)
    (hl : s.g.isLaunching = true) (hsh : s.g.shakeIntensity ≤ 8) :
    (step GameEvent.decayTick s).g.shakeIntensity
        = max (s.g.shakeIntensity - 1/10) 0 ∧
    (0 < s.g.shakeIntensity →
       (step GameEvent.decayTick s).g.shakeIntensity < s.g.shakeIntensity) ∧
    0 ≤ (step GameEvent.decayTick s).g.shakeIntensity ∧
    s.g.shakeIntensity ≤ (step (GameEvent.keyPress now h) s).g.shakeIntensity := by
  refine ⟨?_, ?_, ?_, ?_⟩
  · simp [step, shakeDecayTick, hl]
  · intro hpos
    simp only [step, shakeDecayTick, hl, if_true]
    exact max_lt (by linarith) hpos
  · simp [step, shakeDecayTick, hl]
  · obtain ⟨⟨sc, pw, ry, ex, pa, st, cl, fp, fpt, lst, il, sh, ls, ast⟩, pend⟩ := s
    simp only at hsh ⊢
    cases sc with
    | power => by_cases hfp : fp = true <;> simp [step, handleKeyPress, hfp]
    | launch =>
        by_cases hg2 : (3000 : ℚ) ≤ now - lst
        · have hle : sh ≤ min (sh + 1/5) 8 := le_min (by linarith) hsh
          simpa [step, handleKeyPress, hg2] using hle
        · simp [step, handleKeyPress, hg2]
    | atmosphere =>
        by_cases hg2 : (3000 : ℚ) ≤ now - ast <;> simp [step, handleKeyPress, hg2]

/-- C8, witness: the theorem applied to a concrete launching state with
shake 39/5. -/
theorem C8_witness :
    (step GameEvent.decayTick sLaunchReady).g.shakeIntensity
      = max ((39/5 : ℚ) - 1/10) 0 :=
  (C8_shake_monotonicity sLaunchReady 3000 300 rfl (by norm_num [sLaunchReady])).1

/-- C9, confirmed.  The initial state satisfies the reachability
invariant, and from any state satisfying it every sequence of events
moves the scene only forward in the order power, launch, atmosphere:
no event ever takes the scene backwards. -/
theorem C9_scene_forward_only (stars : List Star) (clouds : List Cloud)
    (s : SysState) (evs : List GameEvent) (h : Inv s) :
    Inv (initSys stars clouds) ∧
    sceneRank s.g.scene ≤ sceneRank (steps evs s).g.scene :=
  ⟨inv_init stars clouds, sceneRank_steps evs s h⟩

/-- C9, witness: the theorem applied to the initial state and one press. -/
theorem C9_witness :
    Inv (initSys [] []) ∧
    sceneRank (initSys [] []).g.scene
      ≤ sceneRank (steps [GameEvent.keyPress 0 300] (initSys [] [])).g.scene :=
  C9_scene_forward_only [] [] (initSys [] []) [GameEvent.keyPress 0 300]
    (inv_init [] [])

/-- C10, confirmed (implicit claim).  From any reachable state (one
satisfying the invariant) in which IsLaunching is true, every sequence
of subsequent events leaves IsLaunching true — so the 50ms decay
interval's owning condition never turns false again, even in the
atmosphere scene; moreover the only single step that can turn
IsLaunching from true to false is a firing of the armed one-shot
full-power timer. -/
theorem C10_isLaunching_persists (s t : SysState) (e : GameEvent)
    (evs : List GameEvent)
    (hInv : Inv s) (hl : s.g.isLaunching = true) (ht : t.g.isLaunching = true) :
    (steps evs s).g.isLaunching = true ∧
    ((step e t).g.isLaunching = false →
       t.launchTimerPending = true ∧ ∃ n, e = GameEvent.fullPowerTimer n) := by
  refine ⟨isLaunching_steps evs s hInv hl, ?_⟩
  obtain ⟨⟨sc, pw, ry, ex, pa, st, cl, fp, fpt, lst, il, sh, ls, ast⟩, pend⟩ := t
  simp only at ht ⊢
  subst ht
  cases e with
  | keyPress now innerHeight =>
      intro hc
      exfalso
      cases sc <;> revert hc <;>
        simp [step, handleKeyPress] <;> split_ifs <;> simp
  | fullPowerTimer now =>
      cases pend with
      | false => simp [step]
      | true => exact fun _ => ⟨rfl, now, rfl⟩
  | decayTick =>
      intro hc
      exfalso
      revert hc
      simp [step, shakeDecayTick]

/-- C10, witness: the theorem applied to a concrete launching state, a
decay-tick trace, and a timer event against a second launching state. -/
theorem C10_witness :
    (steps [GameEvent.decayTick] sLaunchReady).g.isLaunching = true :=
  (C10_isLaunching_persists sLaunchReady sLaunchReady (GameEvent.fullPowerTimer 7)
      [GameEvent.decayTick] ⟨by simp [sLaunchReady], by simp [sLaunchReady]⟩
      rfl rfl).1

end ClickGame
